import Mathlib

/-!
# Shallow embedding of the diagram state engine (src/wasm/src/lib.rs)

The Rust source implements an in-memory diagram store: shapes, connectors,
settings, timestamps, with mutation operations and two geometric queries.
We embed the data model and every operation as pure Lean functions.
`f64` fields are modelled as `ℚ`; JSON values (used by the sparse-patch
`update_shape` and by serialization) are modelled by an inductive `Json`
type; the host clock is passed explicitly as a `now : String` argument;
Rust's `Result<(), JsValue>` together with the (possibly mutated) receiver
is modelled as `Except String Unit × Diagram`.
-/

/-- Shape kinds, mirroring `enum ShapeType` in the source. -/
inductive ShapeType where
  | rectangle
  | circle
  | diamond
  | text
deriving DecidableEq, Repr

/-- Mirrors `struct Shape`: id, kind, geometry, style, optional text. -/
structure Shape where
  id : String
  shape_type : ShapeType
  x : ℚ
  y : ℚ
  width : ℚ
  height : ℚ
  rotation : ℚ
  fill : String
  stroke : String
  stroke_width : ℚ
  text : Option String
deriving DecidableEq, Repr

/-- Mirrors `struct Connector`. -/
structure Connector where
  id : String
  from_shape_id : String
  to_shape_id : String
  from_anchor : String
  to_anchor : String
  stroke : String
  stroke_width : ℚ
deriving DecidableEq, Repr

/-- Mirrors `struct DiagramSettings`. -/
structure DiagramSettings where
  background_color : String
  grid_enabled : Bool
  snap_to_grid : Bool
  grid_size : ℚ
deriving DecidableEq, Repr

/-- Mirrors `impl Default for DiagramSettings`. -/
def DiagramSettings.default : DiagramSettings :=
  { background_color := "#ffffff"
    grid_enabled := true
    snap_to_grid := true
    grid_size := 20 }

/-- Mirrors `struct Diagram`, the aggregate held by `DiagramEngine`. -/
structure Diagram where
  id : String
  name : String
  shapes : List Shape
  connectors : List Connector
  settings : DiagramSettings
  created_at : String
  updated_at : String
deriving DecidableEq, Repr

/-- JSON values, modelling `serde_json::Value` (numbers as `ℚ`). -/
inductive Json where
  | null
  | bool (b : Bool)
  | num (q : ℚ)
  | str (s : String)
  | arr (elems : List Json)
  | obj (fields : List (String × Json))

/-- `Value::get(key)`: field lookup on objects, `None` on anything else. -/
def Json.get (j : Json) (k : String) : Option Json :=
  match j with
  | .obj fields => fields.lookup k
  | _ => none

/-- `Value::as_f64`: numbers yield their value, everything else `None`. -/
def Json.as_f64 (j : Json) : Option ℚ :=
  match j with
  | .num q => some q
  | _ => none

/-- `Value::as_str`: strings yield their value, everything else `None`. -/
def Json.as_str (j : Json) : Option String :=
  match j with
  | .str s => some s
  | _ => none

/-- `Value::as_bool`: booleans yield their value, everything else `None`. -/
def Json.as_bool (j : Json) : Option Bool :=
  match j with
  | .bool b => some b
  | _ => none

namespace DiagramEngine

/-- `DiagramEngine::new(id, name)` with the host clock reading `now`. -/
def new (now : String) (id name : String) : Diagram :=
  { id := id
    name := name
    shapes := []
    connectors := []
    settings := DiagramSettings.default
    created_at := now
    updated_at := now }

/-- `DiagramEngine::add_shape` after the JSON parse succeeded: push the
shape and refresh the timestamp. -/
def add_shape (now : String) (d : Diagram) (shape : Shape) : Diagram :=
  { d with shapes := d.shapes ++ [shape], updated_at := now }

/-- The field-by-field sparse patch applied inside
`DiagramEngine::update_shape` to the found shape, in source order. -/
def applyUpdates (updates : Json) (s : Shape) : Shape :=
  let s := match (updates.get "x").bind Json.as_f64 with
    | some x => { s with x := x }
    | none => s
  let s := match (updates.get "y").bind Json.as_f64 with
    | some y => { s with y := y }
    | none => s
  let s := match (updates.get "width").bind Json.as_f64 with
    | some width => { s with width := width }
    | none => s
  let s := match (updates.get "height").bind Json.as_f64 with
    | some height => { s with height := height }
    | none => s
  let s := match (updates.get "rotation").bind Json.as_f64 with
    | some rotation => { s with rotation := rotation }
    | none => s
  let s := match (updates.get "fill").bind Json.as_str with
    | some fill => { s with fill := fill }
    | none => s
  let s := match (updates.get "stroke").bind Json.as_str with
    | some stroke => { s with stroke := stroke }
    | none => s
  let s := match (updates.get "strokeWidth").bind Json.as_f64 with
    | some stroke_width => { s with stroke_width := stroke_width }
    | none => s
  let s := match (updates.get "text").bind Json.as_str with
    | some text => { s with text := some text }
    | none => s
  s

/-- `iter_mut().find(p)` followed by mutating the found element: rewrite
the first list element satisfying `p` by `f`, leave the rest alone. -/
def updateFirst (p : Shape → Bool) (f : Shape → Shape) : List Shape → List Shape
  | [] => []
  | s :: rest => if p s then f s :: rest else s :: updateFirst p f rest

/-- `DiagramEngine::update_shape` after the JSON parse of the patch
succeeded: patch the first shape with the given id, or fail. -/
def update_shape (now : String) (d : Diagram) (shape_id : String)
    (updates : Json) : Except String Unit × Diagram :=
  if d.shapes.any (fun s => s.id == shape_id) then
    (Except.ok (),
      { d with
          shapes := updateFirst (fun s => s.id == shape_id) (applyUpdates updates) d.shapes
          updated_at := now })
  else
    (Except.error "Shape not found", d)

/-- `DiagramEngine::delete_shape`: retain shapes with a different id,
retain connectors not referencing the id, then check whether the shape
list shrank.  Note the connector filter runs before that check. -/
def delete_shape (now : String) (d : Diagram) (shape_id : String) :
    Except String Unit × Diagram :=
  let initial_len := d.shapes.length
  let shapes' := d.shapes.filter (fun s => s.id != shape_id)
  let connectors' := d.connectors.filter
    (fun c => c.from_shape_id != shape_id && c.to_shape_id != shape_id)
  if shapes'.length < initial_len then
    (Except.ok (),
      { d with shapes := shapes', connectors := connectors', updated_at := now })
  else
    (Except.error "Shape not found",
      { d with shapes := shapes', connectors := connectors' })

/-- `DiagramEngine::add_connector` after the JSON parse succeeded. -/
def add_connector (now : String) (d : Diagram) (c : Connector) : Diagram :=
  { d with connectors := d.connectors ++ [c], updated_at := now }

/-- `DiagramEngine::delete_connector`. -/
def delete_connector (now : String) (d : Diagram) (connector_id : String) :
    Except String Unit × Diagram :=
  let initial_len := d.connectors.length
  let connectors' := d.connectors.filter (fun c => c.id != connector_id)
  if connectors'.length < initial_len then
    (Except.ok (), { d with connectors := connectors', updated_at := now })
  else
    (Except.error "Connector not found", { d with connectors := connectors' })

/-- `DiagramEngine::update_settings` after the JSON parse succeeded:
full replace plus timestamp refresh. -/
def update_settings (now : String) (d : Diagram) (settings : DiagramSettings) :
    Diagram :=
  { d with settings := settings, updated_at := now }

/-- `f64::round`: nearest integer, ties rounded away from zero. -/
def rnd (q : ℚ) : ℤ :=
  if 0 ≤ q then ⌊q + 1 / 2⌋ else ⌈q - 1 / 2⌉

/-- `DiagramEngine::snap_to_grid`: pure query returning a two-element
vector, snapping only when the setting is on. -/
def snap_to_grid (d : Diagram) (x y : ℚ) : List ℚ :=
  if d.settings.snap_to_grid then
    let grid := d.settings.grid_size
    [(rnd (x / grid) : ℚ) * grid, (rnd (y / grid) : ℚ) * grid]
  else
    [x, y]

/-- The hit test used by `find_shape_at`: inclusive axis-aligned
bounding-box containment, rotation ignored. -/
def hits (x y : ℚ) (s : Shape) : Bool :=
  x ≥ s.x && x ≤ s.x + s.width && y ≥ s.y && y ≤ s.y + s.height

/-- `DiagramEngine::find_shape_at`: scan the shape list from the end and
return the id of the first hit. -/
def find_shape_at (d : Diagram) (x y : ℚ) : Option String :=
  (d.shapes.reverse.find? (hits x y)).map Shape.id

end DiagramEngine

/-!
## Serialization (`to_json`) and deserialization (`from_json`)

The derived `Serialize`/`Deserialize` impls (with `rename_all = camelCase`
and the `type` rename on `Shape.shape_type`) are modelled at the JSON-value
level: `to_json` produces a `Json` tree field by field in declaration
order; `from_json` reads an object by key, failing on a missing field or a
field of the wrong kind, except that an `Option` field accepts `null` and
may be missing (serde's special case), and unknown fields are ignored.
-/

/-- Serialization of `ShapeType` (unit variants, camelCase strings). -/
def serShapeType : ShapeType → Json
  | .rectangle => .str "rectangle"
  | .circle => .str "circle"
  | .diamond => .str "diamond"
  | .text => .str "text"

/-- Deserialization of `ShapeType`. -/
def deShapeType (j : Json) : Option ShapeType :=
  match j with
  | .str "rectangle" => some .rectangle
  | .str "circle" => some .circle
  | .str "diamond" => some .diamond
  | .str "text" => some .text
  | _ => none

/-- Serialization of `Shape` (keys in declaration order, camelCased,
`shape_type` renamed to `type`, `text : Option String` as value-or-null). -/
def serShape (s : Shape) : Json :=
  .obj
    [("id", .str s.id),
     ("type", serShapeType s.shape_type),
     ("x", .num s.x),
     ("y", .num s.y),
     ("width", .num s.width),
     ("height", .num s.height),
     ("rotation", .num s.rotation),
     ("fill", .str s.fill),
     ("stroke", .str s.stroke),
     ("strokeWidth", .num s.stroke_width),
     ("text", match s.text with | some t => .str t | none => .null)]

/-- Deserialization of `Shape`. -/
def deShape (j : Json) : Option Shape := do
  let id ← (j.get "id").bind Json.as_str
  let shape_type ← (j.get "type").bind deShapeType
  let x ← (j.get "x").bind Json.as_f64
  let y ← (j.get "y").bind Json.as_f64
  let width ← (j.get "width").bind Json.as_f64
  let height ← (j.get "height").bind Json.as_f64
  let rotation ← (j.get "rotation").bind Json.as_f64
  let fill ← (j.get "fill").bind Json.as_str
  let stroke ← (j.get "stroke").bind Json.as_str
  let stroke_width ← (j.get "strokeWidth").bind Json.as_f64
  let text ← match j.get "text" with
    | none => some none
    | some .null => some none
    | some (.str t) => some (some t)
    | some _ => none
  pure { id, shape_type, x, y, width, height, rotation, fill, stroke,
         stroke_width, text }

/-- Serialization of `Connector`. -/
def serConnector (c : Connector) : Json :=
  .obj
    [("id", .str c.id),
     ("fromShapeId", .str c.from_shape_id),
     ("toShapeId", .str c.to_shape_id),
     ("fromAnchor", .str c.from_anchor),
     ("toAnchor", .str c.to_anchor),
     ("stroke", .str c.stroke),
     ("strokeWidth", .num c.stroke_width)]

/-- Deserialization of `Connector`. -/
def deConnector (j : Json) : Option Connector := do
  let id ← (j.get "id").bind Json.as_str
  let from_shape_id ← (j.get "fromShapeId").bind Json.as_str
  let to_shape_id ← (j.get "toShapeId").bind Json.as_str
  let from_anchor ← (j.get "fromAnchor").bind Json.as_str
  let to_anchor ← (j.get "toAnchor").bind Json.as_str
  let stroke ← (j.get "stroke").bind Json.as_str
  let stroke_width ← (j.get "strokeWidth").bind Json.as_f64
  pure { id, from_shape_id, to_shape_id, from_anchor, to_anchor, stroke,
         stroke_width }

/-- Serialization of `DiagramSettings`. -/
def serSettings (st : DiagramSettings) : Json :=
  .obj
    [("backgroundColor", .str st.background_color),
     ("gridEnabled", .bool st.grid_enabled),
     ("snapToGrid", .bool st.snap_to_grid),
     ("gridSize", .num st.grid_size)]

/-- Deserialization of `DiagramSettings`. -/
def deSettings (j : Json) : Option DiagramSettings := do
  let background_color ← (j.get "backgroundColor").bind Json.as_str
  let grid_enabled ← (j.get "gridEnabled").bind Json.as_bool
  let snap_to_grid ← (j.get "snapToGrid").bind Json.as_bool
  let grid_size ← (j.get "gridSize").bind Json.as_f64
  pure { background_color, grid_enabled, snap_to_grid, grid_size }

/-- Element-wise deserialization of a JSON array (sequential, failing as
a whole if any element fails, like serde's `Vec` visitor). -/
def deList (f : Json → Option α) : List Json → Option (List α)
  | [] => some []
  | j :: rest => do
      let a ← f j
      let t ← deList f rest
      pure (a :: t)

/-- `DiagramEngine::to_json`, at the JSON-value level. -/
def DiagramEngine.to_json (d : Diagram) : Json :=
  .obj
    [("id", .str d.id),
     ("name", .str d.name),
     ("shapes", .arr (d.shapes.map serShape)),
     ("connectors", .arr (d.connectors.map serConnector)),
     ("settings", serSettings d.settings),
     ("createdAt", .str d.created_at),
     ("updatedAt", .str d.updated_at)]

/-- `DiagramEngine::from_json`, at the JSON-value level. -/
def DiagramEngine.from_json (j : Json) : Option Diagram := do
  let id ← (j.get "id").bind Json.as_str
  let name ← (j.get "name").bind Json.as_str
  let shapes ← match j.get "shapes" with
    | some (.arr elems) => deList deShape elems
    | _ => none
  let connectors ← match j.get "connectors" with
    | some (.arr elems) => deList deConnector elems
    | _ => none
  let settings ← (j.get "settings").bind deSettings
  let created_at ← (j.get "createdAt").bind Json.as_str
  let updated_at ← (j.get "updatedAt").bind Json.as_str
  pure { id, name, shapes, connectors, settings, created_at, updated_at }

/-!
## Reachability

`Step d d'` holds when one call of a mutating engine operation (with any
host-clock reading and any already-parsed payload) turns state `d` into
state `d'`; failed calls are included, since they too leave a (possibly
mutated) state behind.  `Reachable d` holds when `d` arises from some
freshly created diagram by a finite sequence of such calls.
-/

/-- One mutating engine call, any payload, any clock reading. -/
inductive Step : Diagram → Diagram → Prop where
  | addShape (now : String) (s : Shape) (d : Diagram) :
      Step d (DiagramEngine.add_shape now d s)
  | updateShape (now : String) (i : String) (u : Json) (d : Diagram) :
      Step d (DiagramEngine.update_shape now d i u).2
  | deleteShape (now : String) (i : String) (d : Diagram) :
      Step d (DiagramEngine.delete_shape now d i).2
  | addConnector (now : String) (c : Connector) (d : Diagram) :
      Step d (DiagramEngine.add_connector now d c)
  | deleteConnector (now : String) (i : String) (d : Diagram) :
      Step d (DiagramEngine.delete_connector now d i).2
  | updateSettings (now : String) (st : DiagramSettings) (d : Diagram) :
      Step d (DiagramEngine.update_settings now d st)

/-- States reachable from some freshly created diagram. -/
def Reachable (d : Diagram) : Prop :=
  ∃ now id name, Relation.ReflTransGen Step (DiagramEngine.new now id name) d

/-- Like `Step`, but an added shape's or connector's id must be absent
from the current collection (fresh ids, as the uuid generator provides). -/
inductive FreshStep : Diagram → Diagram → Prop where
  | addShape (now : String) (s : Shape) (d : Diagram)
      (h : ∀ s' ∈ d.shapes, s'.id ≠ s.id) :
      FreshStep d (DiagramEngine.add_shape now d s)
  | updateShape (now : String) (i : String) (u : Json) (d : Diagram) :
      FreshStep d (DiagramEngine.update_shape now d i u).2
  | deleteShape (now : String) (i : String) (d : Diagram) :
      FreshStep d (DiagramEngine.delete_shape now d i).2
  | addConnector (now : String) (c : Connector) (d : Diagram)
      (h : ∀ c' ∈ d.connectors, c'.id ≠ c.id) :
      FreshStep d (DiagramEngine.add_connector now d c)
  | deleteConnector (now : String) (i : String) (d : Diagram) :
      FreshStep d (DiagramEngine.delete_connector now d i).2
  | updateSettings (now : String) (st : DiagramSettings) (d : Diagram) :
      FreshStep d (DiagramEngine.update_settings now d st)

/-- States reachable when every add uses a fresh id. -/
def FreshReachable (d : Diagram) : Prop :=
  ∃ now id name, Relation.ReflTransGen FreshStep (DiagramEngine.new now id name) d

/-!
## Spec-side definitions

These follow the spec's words, for comparison against the source-derived
functions above.
-/

/-- Modelled from the spec ("§4.2 findShapeAt"): the id of the topmost
shape (last in insertion order) whose axis-aligned box
`[x, x+width] × [y, y+height]` contains the point with inclusive bounds,
rotation ignored; no match when no box contains the point. -/
def specTopmostAt (d : Diagram) (x y : ℚ) : Option String :=
  ((d.shapes.filter (fun s =>
      decide (s.x ≤ x ∧ x ≤ s.x + s.width ∧ s.y ≤ y ∧ y ≤ s.y + s.height))).getLast?).map
    Shape.id

/-!
## Concrete example states

Small closed diagrams, patches and payloads used to evaluate the theorems
below on concrete inputs.
-/

/-- A dangling connector: its endpoints reference no existing shape. -/
def exConn1 : Connector :=
  { id := "c1", from_shape_id := "X", to_shape_id := "Y",
    from_anchor := "left", to_anchor := "right", stroke := "#000000",
    stroke_width := 1 }

/-- An empty diagram plus the dangling connector `exConn1`. -/
def exDiag1 : Diagram :=
  DiagramEngine.add_connector "t1" (DiagramEngine.new "t0" "d1" "Demo") exConn1

/-- A rectangle with id "A". -/
def exShapeA : Shape :=
  { id := "A", shape_type := .rectangle, x := 0, y := 0, width := 10,
    height := 10, rotation := 0, fill := "#ffffff", stroke := "#000000",
    stroke_width := 1, text := none }

/-- A connector whose source is shape "A". -/
def exConnA : Connector :=
  { id := "cA", from_shape_id := "A", to_shape_id := "B",
    from_anchor := "top", to_anchor := "bottom", stroke := "#000000",
    stroke_width := 1 }

/-- A diagram holding shape "A" and the connector `exConnA`. -/
def exDiag2 : Diagram :=
  DiagramEngine.add_connector "t2"
    (DiagramEngine.add_shape "t1" (DiagramEngine.new "t0" "d2" "Demo") exShapeA)
    exConnA

/-- The spec's §8 example shape: `{x:1, y:2, width:3, height:4}`. -/
def exShape3 : Shape :=
  { id := "s1", shape_type := .rectangle, x := 1, y := 2, width := 3,
    height := 4, rotation := 0, fill := "#ffffff", stroke := "#000000",
    stroke_width := 1, text := none }

/-- A diagram holding only `exShape3`. -/
def exDiag3 : Diagram :=
  DiagramEngine.add_shape "t1" (DiagramEngine.new "t0" "d3" "Demo") exShape3

/-- The spec's §8 example patch `{x: 5}`. -/
def exPatch3 : Json := .obj [("x", .num 5)]

/-- A shape with id "A", added twice in `exDiag4`. -/
def dupShape4 : Shape :=
  { id := "A", shape_type := .rectangle, x := 0, y := 0, width := 10,
    height := 10, rotation := 0, fill := "#ffffff", stroke := "#000000",
    stroke_width := 1, text := none }

/-- A diagram reached by adding `dupShape4` twice: duplicate shape ids. -/
def exDiag4 : Diagram :=
  DiagramEngine.add_shape "t2"
    (DiagramEngine.add_shape "t1" (DiagramEngine.new "t0" "d4" "Demo") dupShape4)
    dupShape4

/-- A patch binding `x` to a string, `y` to a number and `text` to null. -/
def exPatch9 : Json :=
  .obj [("x", .str "oops"), ("y", .num 7), ("text", .null)]

/-- A shape with text present, used to exercise `exPatch9`. -/
def exShape9 : Shape :=
  { id := "s9", shape_type := .text, x := 1, y := 2, width := 3,
    height := 4, rotation := 0, fill := "#ffffff", stroke := "#000000",
    stroke_width := 1, text := some "hello" }

/-- A diagram holding only `exShape9`. -/
def exDiag9 : Diagram :=
  DiagramEngine.add_shape "t1" (DiagramEngine.new "t0" "d9" "Demo") exShape9

/-- A connector with id "cD". -/
def dupConn10 : Connector :=
  { id := "cD", from_shape_id := "A", to_shape_id := "B",
    from_anchor := "top", to_anchor := "bottom", stroke := "#000000",
    stroke_width := 1 }

/-- A diagram where shape id "A" and connector id "cD" both occur twice. -/
def exDiag10 : Diagram :=
  DiagramEngine.add_connector "t4"
    (DiagramEngine.add_connector "t3"
      (DiagramEngine.add_shape "t2"
        (DiagramEngine.add_shape "t1" (DiagramEngine.new "t0" "dX" "Demo")
          dupShape4)
        dupShape4)
      dupConn10)
    dupConn10

/-!
## Helper lemmas
-/

open DiagramEngine

theorem reverse_find_eq_filter_getLast {α : Type} (p : α → Bool) (l : List α) :
    l.reverse.find? p = (l.filter p).getLast? := by
  induction l with
  | nil => rfl
  | cons a l ih =>
    rw [List.reverse_cons, List.find?_append, ih, List.filter_cons]
    cases h : p a
    · simp [List.find?, h]
    · cases hl : (List.filter p l).getLast? <;>
        simp [List.find?, h, List.getLast?_cons, hl]

theorem hits_eq (x y : ℚ) (s : Shape) :
    hits x y s =
      decide (s.x ≤ x ∧ x ≤ s.x + s.width ∧ s.y ≤ y ∧ y ≤ s.y + s.height) := by
  simp [hits, ge_iff_le, Bool.and_assoc]

theorem deShape_serShape (s : Shape) : deShape (serShape s) = some s := by
  obtain ⟨i, st, x, y, w, ht, r, f, sk, sw, tx⟩ := s
  cases st <;> cases tx <;> rfl

theorem deList_deShape_map (l : List Shape) :
    deList deShape (l.map serShape) = some l := by
  induction l with
  | nil => rfl
  | cons s l ih => simp [deList, deShape_serShape, ih]

theorem deConnector_serConnector (c : Connector) :
    deConnector (serConnector c) = some c := rfl

theorem deList_deConnector_map (l : List Connector) :
    deList deConnector (l.map serConnector) = some l := by
  induction l with
  | nil => rfl
  | cons c l ih => simp [deList, deConnector_serConnector, ih]

theorem deSettings_serSettings (st : DiagramSettings) :
    deSettings (serSettings st) = some st := rfl

theorem applyUpdates_spec (u : Json) (s : Shape) :
    applyUpdates u s =
      { id := s.id
        shape_type := s.shape_type
        x := ((u.get "x").bind Json.as_f64).getD s.x
        y := ((u.get "y").bind Json.as_f64).getD s.y
        width := ((u.get "width").bind Json.as_f64).getD s.width
        height := ((u.get "height").bind Json.as_f64).getD s.height
        rotation := ((u.get "rotation").bind Json.as_f64).getD s.rotation
        fill := ((u.get "fill").bind Json.as_str).getD s.fill
        stroke := ((u.get "stroke").bind Json.as_str).getD s.stroke
        stroke_width := ((u.get "strokeWidth").bind Json.as_f64).getD s.stroke_width
        text := (((u.get "text").bind Json.as_str).map some).getD s.text } := by
  unfold applyUpdates
  cases (u.get "x").bind Json.as_f64 <;>
    cases (u.get "y").bind Json.as_f64 <;>
      cases (u.get "width").bind Json.as_f64 <;>
        cases (u.get "height").bind Json.as_f64 <;>
          cases (u.get "rotation").bind Json.as_f64 <;>
            cases (u.get "fill").bind Json.as_str <;>
              cases (u.get "stroke").bind Json.as_str <;>
                cases (u.get "strokeWidth").bind Json.as_f64 <;>
                  cases (u.get "text").bind Json.as_str <;> rfl

theorem updateFirst_eq_set (p : Shape → Bool) (f : Shape → Shape) :
    ∀ l : List Shape, l.any p = true →
      ∃ i, ∃ hi : i < l.length,
        p (l.get ⟨i, hi⟩) = true ∧
        (∀ j, ∀ hj : j < l.length, j < i → p (l.get ⟨j, hj⟩) = false) ∧
        updateFirst p f l = l.set i (f (l.get ⟨i, hi⟩)) := by
  intro l
  induction l with
  | nil => intro h; simp at h
  | cons a t ih =>
    intro h
    cases ha : p a
    · have ht : t.any p = true := by simpa [List.any_cons, ha] using h
      obtain ⟨i, hi, hpi, hbefore, heq⟩ := ih ht
      refine ⟨i + 1, by simpa using Nat.succ_lt_succ hi, by simpa using hpi, ?_, ?_⟩
      · intro j hj hji
        cases j with
        | zero => simpa using ha
        | succ k =>
          have hk : k < t.length := Nat.lt_of_succ_lt_succ hj
          simpa using hbefore k hk (Nat.lt_of_succ_lt_succ hji)
      · simp [updateFirst, ha, heq]
    · exact ⟨0, Nat.succ_pos _, by simpa using ha,
        fun j hj hj0 => absurd hj0 (Nat.not_lt_zero j),
        by simp [updateFirst, ha]⟩

theorem applyUpdates_id (u : Json) (s : Shape) :
    (applyUpdates u s).id = s.id := by rw [applyUpdates_spec]

theorem map_id_updateFirst (p : Shape → Bool) (f : Shape → Shape)
    (hf : ∀ s, (f s).id = s.id) :
    ∀ l : List Shape, (updateFirst p f l).map Shape.id = l.map Shape.id := by
  intro l
  induction l with
  | nil => rfl
  | cons a t ih =>
    cases ha : p a <;> simp [updateFirst, ha, hf, ih]

theorem update_shape_shapes_map_id (now : String) (d : Diagram) (i : String)
    (u : Json) :
    ((update_shape now d i u).2.shapes).map Shape.id = d.shapes.map Shape.id := by
  unfold update_shape
  split
  · exact map_id_updateFirst _ _ (applyUpdates_id u) d.shapes
  · rfl

theorem update_shape_connectors (now : String) (d : Diagram) (i : String)
    (u : Json) : (update_shape now d i u).2.connectors = d.connectors := by
  unfold update_shape; split <;> rfl

theorem delete_shape_shapes (now : String) (d : Diagram) (i : String) :
    (delete_shape now d i).2.shapes = d.shapes.filter (fun s => s.id != i) := by
  simp only [delete_shape]; split <;> rfl

theorem delete_shape_connectors (now : String) (d : Diagram) (i : String) :
    (delete_shape now d i).2.connectors =
      d.connectors.filter (fun c => c.from_shape_id != i && c.to_shape_id != i) := by
  simp only [delete_shape]; split <;> rfl

theorem delete_connector_shapes (now : String) (d : Diagram) (i : String) :
    (delete_connector now d i).2.shapes = d.shapes := by
  simp only [delete_connector]; split <;> rfl

theorem delete_connector_connectors (now : String) (d : Diagram) (i : String) :
    (delete_connector now d i).2.connectors =
      d.connectors.filter (fun c => c.id != i) := by
  simp only [delete_connector]; split <;> rfl

theorem rnd_nearest (q : ℚ) :
    |((rnd q : ℤ) : ℚ) - q| ≤ 1 / 2 ∧
      (|((rnd q : ℤ) : ℚ) - q| = 1 / 2 → |((rnd q : ℤ) : ℚ)| = |q| + 1 / 2) := by
  unfold rnd
  by_cases hq : 0 ≤ q
  · rw [if_pos hq]
    have h1 : ((⌊q + 1 / 2⌋ : ℤ) : ℚ) ≤ q + 1 / 2 := Int.floor_le _
    have h2 : q + 1 / 2 < (⌊q + 1 / 2⌋ : ℚ) + 1 := Int.lt_floor_add_one _
    constructor
    · rw [abs_le]; constructor <;> linarith
    · intro htie
      have hz : ((⌊q + 1 / 2⌋ : ℤ) : ℚ) - q = 1 / 2 := by
        rcases abs_eq (by norm_num : (0 : ℚ) ≤ 1 / 2) |>.mp htie with h | h
        · exact h
        · linarith
      have hv : ((⌊q + 1 / 2⌋ : ℤ) : ℚ) = q + 1 / 2 := by linarith
      rw [hv, abs_of_nonneg hq, abs_of_nonneg (by linarith : (0:ℚ) ≤ q + 1 / 2)]
  · rw [if_neg hq]
    push_neg at hq
    have h1 : q - 1 / 2 ≤ ((⌈q - 1 / 2⌉ : ℤ) : ℚ) := Int.le_ceil _
    have h2 : ((⌈q - 1 / 2⌉ : ℤ) : ℚ) < (q - 1 / 2) + 1 := Int.ceil_lt_add_one _
    constructor
    · rw [abs_le]; constructor <;> linarith
    · intro htie
      have hz : ((⌈q - 1 / 2⌉ : ℤ) : ℚ) - q = -(1 / 2) := by
        rcases abs_eq (by norm_num : (0 : ℚ) ≤ 1 / 2) |>.mp htie with h | h
        · linarith
        · linarith
      have hv : ((⌈q - 1 / 2⌉ : ℤ) : ℚ) = q - 1 / 2 := by linarith
      rw [hv, abs_of_neg hq, abs_of_neg (by linarith : q - 1 / 2 < 0)]
      ring

theorem nodup_ids_preserved_add_shape (now : String) (d : Diagram) (s : Shape)
    (hfresh : ∀ s2 ∈ d.shapes, s2.id ≠ s.id)
    (h : (d.shapes.map Shape.id).Nodup) :
    (((add_shape now d s).shapes).map Shape.id).Nodup := by
  simp only [add_shape, List.map_append, List.map_cons, List.map_nil]
  rw [List.nodup_append]
  refine ⟨h, List.nodup_singleton _, ?_⟩
  intro a ha hb
  simp only [List.mem_map] at ha
  obtain ⟨s2, hs2, rfl⟩ := ha
  simp only [List.mem_singleton] at hb
  exact hfresh s2 hs2 hb

/-!
## Claims
-/

/-- C1 counterexample: deleting a nonexistent shape id from a diagram that
holds a dangling connector referencing that id fails with NotFound, yet the
connector list changes — the state is not left entirely unchanged. -/
theorem C1_counterexample :
    (delete_shape "t2" exDiag1 "X").1 = Except.error "Shape not found" ∧
    (delete_shape "t2" exDiag1 "X").2.connectors ≠ exDiag1.connectors ∧
    (delete_shape "t2" exDiag1 "X").2 ≠ exDiag1 :=
  ⟨rfl, by decide, by decide⟩

/-- C1 (amended): when no shape matches the id, `delete_shape` fails with
NotFound and leaves the shape sequence, the settings, `updatedAt`,
`createdAt`, id and name unchanged; the connector sequence, however, is
still filtered by the cascade, so it is unchanged only when no connector
references the given id. -/
theorem C1_delete_missing_shape (now : String) (d : Diagram) (i : String)
    (h : ∀ s ∈ d.shapes, s.id ≠ i) :
    (delete_shape now d i).1 = Except.error "Shape not found" ∧
    (delete_shape now d i).2.shapes = d.shapes ∧
    (delete_shape now d i).2.settings = d.settings ∧
    (delete_shape now d i).2.updated_at = d.updated_at ∧
    (delete_shape now d i).2.created_at = d.created_at ∧
    (delete_shape now d i).2.id = d.id ∧
    (delete_shape now d i).2.name = d.name ∧
    (delete_shape now d i).2.connectors =
      d.connectors.filter (fun c => c.from_shape_id != i && c.to_shape_id != i) ∧
    ((∀ c ∈ d.connectors, c.from_shape_id ≠ i ∧ c.to_shape_id ≠ i) →
      (delete_shape now d i).2 = d) := by
  have hfilter : d.shapes.filter (fun s => s.id != i) = d.shapes :=
    List.filter_eq_self.mpr (fun s hs => by simpa using h s hs)
  have hcond : ¬ (d.shapes.filter (fun s => s.id != i)).length < d.shapes.length := by
    rw [hfilter]; exact Nat.lt_irrefl _
  refine ⟨?_, ?_, ?_, ?_, ?_, ?_, ?_, ?_, ?_⟩
  · simp only [delete_shape]; rw [if_neg hcond]
  · rw [delete_shape_shapes, hfilter]
  · simp only [delete_shape]; split <;> rfl
  · simp only [delete_shape]; rw [if_neg hcond]
  · simp only [delete_shape]; split <;> rfl
  · simp only [delete_shape]; split <;> rfl
  · simp only [delete_shape]; split <;> rfl
  · exact delete_shape_connectors now d i
  · intro hc
    have hcf : d.connectors.filter
        (fun c => c.from_shape_id != i && c.to_shape_id != i) = d.connectors :=
      List.filter_eq_self.mpr (fun c hcmem => by
        obtain ⟨h1, h2⟩ := hc c hcmem
        simp [h1, h2])
    simp only [delete_shape]
    rw [if_neg hcond]
    cases d
    simp_all

/-- C1 witness: on an empty diagram, deleting "X" fails with NotFound and
the state is exactly unchanged. -/
theorem C1_witness :
    (delete_shape "t1" (new "t0" "a" "b") "X").1 = Except.error "Shape not found" ∧
    (delete_shape "t1" (new "t0" "a" "b") "X").2 = new "t0" "a" "b" :=
  ⟨(C1_delete_missing_shape "t1" (new "t0" "a" "b") "X" (by decide)).1,
   (C1_delete_missing_shape "t1" (new "t0" "a" "b") "X" (by decide)).2.2.2.2.2.2.2.2
     (by decide)⟩

/-- C2: when some shape has the given id, `delete_shape` succeeds, no shape
with that id remains, no connector whose `fromShapeId` or `toShapeId` equals
that id remains, and `updatedAt` is refreshed. -/
theorem C2_delete_shape_cascades (now : String) (d : Diagram) (i : String)
    (h : ∃ s ∈ d.shapes, s.id = i) :
    (delete_shape now d i).1 = Except.ok () ∧
    (∀ s ∈ (delete_shape now d i).2.shapes, s.id ≠ i) ∧
    (∀ c ∈ (delete_shape now d i).2.connectors,
      c.from_shape_id ≠ i ∧ c.to_shape_id ≠ i) ∧
    (delete_shape now d i).2.updated_at = now := by
  obtain ⟨s0, hs0, hid⟩ := h
  have hcond : (d.shapes.filter (fun s => s.id != i)).length < d.shapes.length := by
    rw [List.length_filter_lt_length_iff_exists]
    exact ⟨s0, hs0, by simp [hid]⟩
  refine ⟨?_, ?_, ?_, ?_⟩
  · simp only [delete_shape]; rw [if_pos hcond]
  · intro s hs
    rw [delete_shape_shapes] at hs
    simpa using (List.mem_filter.mp hs).2
  · intro c hc
    rw [delete_shape_connectors] at hc
    have hmem := (List.mem_filter.mp hc).2
    simp only [Bool.and_eq_true, bne_iff_ne] at hmem
    exact hmem
  · simp only [delete_shape]; rw [if_pos hcond]

/-- C2 witness: deleting shape "A" from a diagram where connector `exConnA`
references "A" succeeds, leaves no connector referencing "A", and refreshes
the timestamp. -/
theorem C2_witness :
    (delete_shape "t3" exDiag2 "A").1 = Except.ok () ∧
    (∀ c ∈ (delete_shape "t3" exDiag2 "A").2.connectors,
      c.from_shape_id ≠ "A" ∧ c.to_shape_id ≠ "A") ∧
    (delete_shape "t3" exDiag2 "A").2.updated_at = "t3" :=
  ⟨(C2_delete_shape_cascades "t3" exDiag2 "A" (by decide)).1,
   (C2_delete_shape_cascades "t3" exDiag2 "A" (by decide)).2.2.1,
   (C2_delete_shape_cascades "t3" exDiag2 "A" (by decide)).2.2.2⟩

/-- C3: `update_shape` has sparse-patch semantics.  When a shape with the
given id exists the call succeeds; id, name, connectors, settings and
`createdAt` are untouched and `updatedAt` becomes the clock reading; only
the first shape with that id is replaced, by its patched version, all other
shapes staying in place.  The patch keeps the shape's id and kind, leaves
each of the nine recognized fields unchanged when its key is absent,
overwrites it with the supplied value when present with the right type, and
depends only on the nine recognized keys (any other field of the payload is
ignored).  When no shape has the id, the call fails with NotFound and the
state, `updatedAt` included, is exactly unchanged. -/
theorem C3_update_shape_sparse_patch (now : String) (d : Diagram) (i : String)
    (u : Json) :
    ((∃ s ∈ d.shapes, s.id = i) →
      (update_shape now d i u).1 = Except.ok () ∧
      (update_shape now d i u).2.id = d.id ∧
      (update_shape now d i u).2.name = d.name ∧
      (update_shape now d i u).2.connectors = d.connectors ∧
      (update_shape now d i u).2.settings = d.settings ∧
      (update_shape now d i u).2.created_at = d.created_at ∧
      (update_shape now d i u).2.updated_at = now ∧
      ∃ j, ∃ hj : j < d.shapes.length,
        (d.shapes.get ⟨j, hj⟩).id = i ∧
        (∀ k, ∀ hk : k < d.shapes.length, k < j →
          (d.shapes.get ⟨k, hk⟩).id ≠ i) ∧
        (update_shape now d i u).2.shapes =
          d.shapes.set j (applyUpdates u (d.shapes.get ⟨j, hj⟩))) ∧
    ((∀ s ∈ d.shapes, s.id ≠ i) →
      update_shape now d i u = (Except.error "Shape not found", d)) ∧
    (∀ s : Shape,
      (applyUpdates u s).id = s.id ∧
      (applyUpdates u s).shape_type = s.shape_type ∧
      (u.get "x" = none → (applyUpdates u s).x = s.x) ∧
      (u.get "y" = none → (applyUpdates u s).y = s.y) ∧
      (u.get "width" = none → (applyUpdates u s).width = s.width) ∧
      (u.get "height" = none → (applyUpdates u s).height = s.height) ∧
      (u.get "rotation" = none → (applyUpdates u s).rotation = s.rotation) ∧
      (u.get "fill" = none → (applyUpdates u s).fill = s.fill) ∧
      (u.get "stroke" = none → (applyUpdates u s).stroke = s.stroke) ∧
      (u.get "strokeWidth" = none →
        (applyUpdates u s).stroke_width = s.stroke_width) ∧
      (u.get "text" = none → (applyUpdates u s).text = s.text) ∧
      (∀ q : ℚ, u.get "x" = some (.num q) → (applyUpdates u s).x = q) ∧
      (∀ q : ℚ, u.get "y" = some (.num q) → (applyUpdates u s).y = q) ∧
      (∀ q : ℚ, u.get "width" = some (.num q) → (applyUpdates u s).width = q) ∧
      (∀ q : ℚ, u.get "height" = some (.num q) → (applyUpdates u s).height = q) ∧
      (∀ q : ℚ, u.get "rotation" = some (.num q) →
        (applyUpdates u s).rotation = q) ∧
      (∀ t : String, u.get "fill" = some (.str t) → (applyUpdates u s).fill = t) ∧
      (∀ t : String, u.get "stroke" = some (.str t) →
        (applyUpdates u s).stroke = t) ∧
      (∀ q : ℚ, u.get "strokeWidth" = some (.num q) →
        (applyUpdates u s).stroke_width = q) ∧
      (∀ t : String, u.get "text" = some (.str t) →
        (applyUpdates u s).text = some t)) ∧
    (∀ (s : Shape) (u2 : Json),
      u2.get "x" = u.get "x" → u2.get "y" = u.get "y" →
      u2.get "width" = u.get "width" → u2.get "height" = u.get "height" →
      u2.get "rotation" = u.get "rotation" → u2.get "fill" = u.get "fill" →
      u2.get "stroke" = u.get "stroke" →
      u2.get "strokeWidth" = u.get "strokeWidth" →
      u2.get "text" = u.get "text" →
      applyUpdates u2 s = applyUpdates u s) := by
  refine ⟨?_, ?_, ?_, ?_⟩
  · rintro ⟨s0, hs0, hid⟩
    have hany : d.shapes.any (fun s => s.id == i) = true :=
      List.any_eq_true.mpr ⟨s0, hs0, by simp [hid]⟩
    obtain ⟨j, hj, hpj, hbefore, heq⟩ :=
      updateFirst_eq_set (fun s => s.id == i) (applyUpdates u) d.shapes hany
    refine ⟨?_, ?_, ?_, ?_, ?_, ?_, ?_, j, hj, by simpa using hpj,
      fun k hk hkj => by simpa using hbefore k hk hkj, ?_⟩ <;>
      simp only [update_shape, if_pos hany]
    exact heq
  · intro h
    have hany : ¬ d.shapes.any (fun s => s.id == i) = true := by
      rw [List.any_eq_true]
      rintro ⟨s0, hs0, hb⟩
      exact h s0 hs0 (by simpa using hb)
    simp only [update_shape, if_neg hany]
  · intro s
    rw [applyUpdates_spec]
    refine ⟨rfl, rfl, ?_, ?_, ?_, ?_, ?_, ?_, ?_, ?_, ?_, ?_, ?_, ?_, ?_, ?_,
      ?_, ?_, ?_, ?_⟩
    · intro h; simp [h]
    · intro h; simp [h]
    · intro h; simp [h]
    · intro h; simp [h]
    · intro h; simp [h]
    · intro h; simp [h]
    · intro h; simp [h]
    · intro h; simp [h]
    · intro h; simp [h]
    · intro q hq; simp [hq, Json.as_f64]
    · intro q hq; simp [hq, Json.as_f64]
    · intro q hq; simp [hq, Json.as_f64]
    · intro q hq; simp [hq, Json.as_f64]
    · intro q hq; simp [hq, Json.as_f64]
    · intro t ht; simp [ht, Json.as_str]
    · intro t ht; simp [ht, Json.as_str]
    · intro q hq; simp [hq, Json.as_f64]
    · intro t ht; simp [ht, Json.as_str]
  · intro s u2 h1 h2 h3 h4 h5 h6 h7 h8 h9
    rw [applyUpdates_spec, applyUpdates_spec, h1, h2, h3, h4, h5, h6, h7, h8, h9]

/-- C3 witness: the spec's §8 example — patching `{x: 5}` onto the shape
`{x:1, y:2, width:3, height:4}` succeeds, leaves connectors and settings
unchanged, and yields the shape with only `x` overwritten. -/
theorem C3_witness :
    (update_shape "t2" exDiag3 "s1" exPatch3).1 = Except.ok () ∧
    (update_shape "t2" exDiag3 "s1" exPatch3).2.connectors = exDiag3.connectors ∧
    (update_shape "t2" exDiag3 "s1" exPatch3).2.settings = exDiag3.settings ∧
    (update_shape "t2" exDiag3 "s1" exPatch3).2.shapes =
      [{ exShape3 with x := 5 }] :=
  ⟨((C3_update_shape_sparse_patch "t2" exDiag3 "s1" exPatch3).1 (by decide)).1,
   ((C3_update_shape_sparse_patch "t2" exDiag3 "s1" exPatch3).1 (by decide)).2.2.2.1,
   ((C3_update_shape_sparse_patch "t2" exDiag3 "s1" exPatch3).1 (by decide)).2.2.2.2.1,
   by decide⟩

/-- C4 counterexample: a state with two shapes sharing id "A" is reachable
from a freshly created diagram by two `add_shape` calls, so shape ids are
not pairwise distinct in every reachable state. -/
theorem C4_counterexample :
    Reachable exDiag4 ∧ ¬ (exDiag4.shapes.map Shape.id).Nodup :=
  ⟨⟨"t0", "d4", "Demo",
    Relation.ReflTransGen.tail
      (Relation.ReflTransGen.tail Relation.ReflTransGen.refl
        (Step.addShape "t1" dupShape4 _))
      (Step.addShape "t2" dupShape4 _)⟩,
   by decide⟩

/-- C4 (amended): in every state reachable from a freshly created diagram
by operations in which every added shape's id is absent from the current
shape sequence and every added connector's id is absent from the current
connector sequence (as with the uuid-based id generator), shape ids are
pairwise distinct and connector ids are pairwise distinct. -/
theorem C4_fresh_ids_unique (d : Diagram) (h : FreshReachable d) :
    (d.shapes.map Shape.id).Nodup ∧ (d.connectors.map Connector.id).Nodup := by
  obtain ⟨now, id, name, hsteps⟩ := h
  induction hsteps with
  | refl => exact ⟨List.nodup_nil, List.nodup_nil⟩
  | tail hab hbc ih =>
    obtain ⟨ih1, ih2⟩ := ih
    cases hbc with
    | addShape now2 s d2 hfresh =>
      exact ⟨nodup_ids_preserved_add_shape _ _ _ hfresh ih1, ih2⟩
    | updateShape now2 i u d2 =>
      rw [update_shape_shapes_map_id, update_shape_connectors]
      exact ⟨ih1, ih2⟩
    | deleteShape now2 i d2 =>
      rw [delete_shape_shapes, delete_shape_connectors]
      exact ⟨((List.filter_sublist _).map Shape.id).nodup ih1,
        ((List.filter_sublist _).map Connector.id).nodup ih2⟩
    | addConnector now2 c d2 hfresh =>
      refine ⟨ih1, ?_⟩
      simp only [add_connector, List.map_append, List.map_cons, List.map_nil]
      rw [List.nodup_append]
      refine ⟨ih2, List.nodup_singleton _, ?_⟩
      intro a ha hb
      simp only [List.mem_map] at ha
      obtain ⟨c2, hc2, rfl⟩ := ha
      simp only [List.mem_singleton] at hb
      exact hfresh c2 hc2 hb
    | deleteConnector now2 i d2 =>
      rw [delete_connector_shapes, delete_connector_connectors]
      exact ⟨ih1, ((List.filter_sublist _).map Connector.id).nodup ih2⟩
    | updateSettings now2 st d2 =>
      exact ⟨ih1, ih2⟩

/-- C4 witness: after one fresh-id `add_shape` on a fresh diagram, shape
ids and connector ids are pairwise distinct. -/
theorem C4_witness :
    (((add_shape "t1" (new "t0" "d4" "Demo") dupShape4).shapes).map Shape.id).Nodup ∧
    (((add_shape "t1" (new "t0" "d4" "Demo") dupShape4).connectors).map
      Connector.id).Nodup :=
  C4_fresh_ids_unique _
    ⟨"t0", "d4", "Demo",
     Relation.ReflTransGen.tail Relation.ReflTransGen.refl
       (FreshStep.addShape "t1" dupShape4 _ (by decide))⟩

/-- C5: `find_shape_at` agrees with the spec-side description — it returns
the id of the last shape in insertion order whose axis-aligned box
`[x, x+width] × [y, y+height]` contains the point with inclusive bounds on
all four edges, rotation ignored, and no match when no box contains the
point. -/
theorem C5_find_shape_at_topmost (d : Diagram) (x y : ℚ) :
    find_shape_at d x y = specTopmostAt d x y := by
  unfold find_shape_at specTopmostAt
  rw [reverse_find_eq_filter_getLast,
    List.filter_congr (fun s _ => hits_eq x y s)]

/-- C6: `snap_to_grid` rounds each coordinate with `rnd`, which takes a
nearest integer and on half-way ties picks the integer of larger absolute
value (round half away from zero); with snapping disabled the point is
returned unchanged; with default settings (grid 20, snapping on),
`snap_to_grid(25, 33)` returns `(20, 40)`. -/
theorem C6_snap_to_grid :
    (∀ q : ℚ, |((rnd q : ℤ) : ℚ) - q| ≤ 1 / 2 ∧
      (|((rnd q : ℤ) : ℚ) - q| = 1 / 2 → |((rnd q : ℤ) : ℚ)| = |q| + 1 / 2)) ∧
    (∀ (d : Diagram) (x y : ℚ), d.settings.snap_to_grid = true →
      snap_to_grid d x y =
        [((rnd (x / d.settings.grid_size) : ℤ) : ℚ) * d.settings.grid_size,
         ((rnd (y / d.settings.grid_size) : ℤ) : ℚ) * d.settings.grid_size]) ∧
    (∀ (d : Diagram) (x y : ℚ), d.settings.snap_to_grid = false →
      snap_to_grid d x y = [x, y]) ∧
    (∀ now id name : String,
      snap_to_grid (new now id name) 25 33 = [20, 40]) := by
  refine ⟨rnd_nearest, ?_, ?_, ?_⟩
  · intro d x y h; simp [snap_to_grid, h]
  · intro d x y h; simp [snap_to_grid, h]
  · intro now id name
    norm_num [snap_to_grid, new, DiagramSettings.default, rnd]

/-- C6 witness: the pinned example on a freshly created diagram. -/
theorem C6_witness :
    snap_to_grid (new "t0" "d" "n") 25 33 = [20, 40] :=
  C6_snap_to_grid.2.2.2 "t0" "d" "n"

/-- C7: serialization round-trip — for every in-memory diagram,
deserializing the serialized form reconstructs the diagram exactly, all
fields included. -/
theorem C7_round_trip (d : Diagram) :
    DiagramEngine.from_json (DiagramEngine.to_json d) = some d := by
  simp [DiagramEngine.to_json, DiagramEngine.from_json, Json.get, List.lookup,
    Json.as_str, deList_deShape_map, deList_deConnector_map,
    deSettings_serSettings]

/-- C8: `new` (create) always yields a diagram with the given id and name,
empty shape and connector sequences, the default settings (background
"#ffffff", grid enabled, snap enabled, grid size 20), and
`createdAt = updatedAt =` the clock reading. -/
theorem C8_create (now id name : String) :
    (new now id name).id = id ∧
    (new now id name).name = name ∧
    (new now id name).shapes = [] ∧
    (new now id name).connectors = [] ∧
    (new now id name).settings = DiagramSettings.default ∧
    (new now id name).settings.background_color = "#ffffff" ∧
    (new now id name).settings.grid_enabled = true ∧
    (new now id name).settings.snap_to_grid = true ∧
    (new now id name).settings.grid_size = 20 ∧
    (new now id name).created_at = now ∧
    (new now id name).updated_at = now ∧
    (new now id name).created_at = (new now id name).updated_at :=
  ⟨rfl, rfl, rfl, rfl, rfl, rfl, rfl, rfl, rfl, rfl, rfl, rfl⟩

/-- C9: for an existing shape id, `update_shape` succeeds on any parsed
payload and refreshes `updatedAt`; a recognized key bound to a value of
the wrong JSON kind is silently ignored (`x` bound to a non-number leaves
`x` unchanged, `text` or `fill` bound to a non-string leaves them
unchanged) while correctly typed keys are applied; and a shape whose
`text` is present can never have it reset to absent by any patch. -/
theorem C9_update_shape_wrong_types (now : String) (d : Diagram) (i : String)
    (u : Json) :
    ((∃ s ∈ d.shapes, s.id = i) →
      (update_shape now d i u).1 = Except.ok () ∧
      (update_shape now d i u).2.updated_at = now) ∧
    (∀ (s : Shape) (v : Json), u.get "x" = some v → v.as_f64 = none →
      (applyUpdates u s).x = s.x) ∧
    (∀ (s : Shape) (v : Json), u.get "text" = some v → v.as_str = none →
      (applyUpdates u s).text = s.text) ∧
    (∀ (s : Shape) (v : Json), u.get "fill" = some v → v.as_str = none →
      (applyUpdates u s).fill = s.fill) ∧
    (∀ (s : Shape) (q : ℚ), u.get "y" = some (.num q) →
      (applyUpdates u s).y = q) ∧
    (∀ (s : Shape) (t : String), s.text = some t →
      ∃ t2 : String, (applyUpdates u s).text = some t2) := by
  refine ⟨?_, ?_, ?_, ?_, ?_, ?_⟩
  · rintro ⟨s0, hs0, hid⟩
    have hany : d.shapes.any (fun s => s.id == i) = true :=
      List.any_eq_true.mpr ⟨s0, hs0, by simp [hid]⟩
    exact ⟨by simp only [update_shape, if_pos hany],
      by simp only [update_shape, if_pos hany]⟩
  · intro s v hv hf; rw [applyUpdates_spec]; simp [hv, hf]
  · intro s v hv hf; rw [applyUpdates_spec]; simp [hv, hf]
  · intro s v hv hf; rw [applyUpdates_spec]; simp [hv, hf]
  · intro s q hq; rw [applyUpdates_spec]; simp [hq, Json.as_f64]
  · intro s t ht
    rw [applyUpdates_spec]
    cases hg : (u.get "text").bind Json.as_str with
    | none => exact ⟨t, by simp [hg, ht]⟩
    | some t2 => exact ⟨t2, by simp [hg]⟩

/-- C9 witness: patching `{x: "oops", y: 7, text: null}` onto a shape with
text "hello" succeeds, leaves `x` and `text` unchanged, and sets `y` to 7. -/
theorem C9_witness :
    (update_shape "t2" exDiag9 "s9" exPatch9).1 = Except.ok () ∧
    (update_shape "t2" exDiag9 "s9" exPatch9).2.updated_at = "t2" ∧
    (applyUpdates exPatch9 exShape9).x = exShape9.x ∧
    (applyUpdates exPatch9 exShape9).text = exShape9.text ∧
    (applyUpdates exPatch9 exShape9).y = 7 ∧
    ∃ t2 : String, (applyUpdates exPatch9 exShape9).text = some t2 :=
  ⟨((C9_update_shape_wrong_types "t2" exDiag9 "s9" exPatch9).1 (by decide)).1,
   ((C9_update_shape_wrong_types "t2" exDiag9 "s9" exPatch9).1 (by decide)).2,
   (C9_update_shape_wrong_types "t2" exDiag9 "s9" exPatch9).2.1 exShape9
     (.str "oops") rfl rfl,
   (C9_update_shape_wrong_types "t2" exDiag9 "s9" exPatch9).2.2.1 exShape9
     .null rfl rfl,
   (C9_update_shape_wrong_types "t2" exDiag9 "s9" exPatch9).2.2.2.2.1 exShape9
     7 rfl,
   (C9_update_shape_wrong_types "t2" exDiag9 "s9" exPatch9).2.2.2.2.2 exShape9
     "hello" rfl⟩

/-- C10: when at least two shapes share the given id, one `delete_shape`
call succeeds and removes every shape with that id; likewise one
`delete_connector` call removes every connector with the given id — the
retain-based deletes never leave a later duplicate behind. -/
theorem C10_delete_removes_all_matches (now : String) (d : Diagram)
    (i c : String) :
    (2 ≤ d.shapes.countP (fun s => s.id == i) →
      (delete_shape now d i).1 = Except.ok () ∧
      (delete_shape now d i).2.shapes.countP (fun s => s.id == i) = 0) ∧
    (2 ≤ d.connectors.countP (fun k => k.id == c) →
      (delete_connector now d c).1 = Except.ok () ∧
      (delete_connector now d c).2.connectors.countP (fun k => k.id == c) = 0) := by
  constructor
  · intro h
    obtain ⟨s0, hs0, hp0⟩ := List.countP_pos_iff.mp
      (Nat.lt_of_lt_of_le (by norm_num) h)
    have hcond : (d.shapes.filter (fun s => s.id != i)).length < d.shapes.length := by
      rw [List.length_filter_lt_length_iff_exists]
      exact ⟨s0, hs0, by simp [by simpa using hp0]⟩
    refine ⟨by simp only [delete_shape]; rw [if_pos hcond], ?_⟩
    rw [delete_shape_shapes, List.countP_filter]
    have hz : d.shapes.countP (fun s => (s.id == i) && (s.id != i)) =
        d.shapes.countP (fun _ => false) :=
      List.countP_congr (fun s _ => by simp [bne])
    exact hz.trans (by simp)
  · intro h
    obtain ⟨c0, hc0, hp0⟩ := List.countP_pos_iff.mp
      (Nat.lt_of_lt_of_le (by norm_num) h)
    have hcond : (d.connectors.filter (fun k => k.id != c)).length <
        d.connectors.length := by
      rw [List.length_filter_lt_length_iff_exists]
      exact ⟨c0, hc0, by simp [by simpa using hp0]⟩
    refine ⟨by simp only [delete_connector]; rw [if_pos hcond], ?_⟩
    rw [delete_connector_connectors, List.countP_filter]
    have hz : d.connectors.countP (fun k => (k.id == c) && (k.id != c)) =
        d.connectors.countP (fun _ => false) :=
      List.countP_congr (fun k _ => by simp [bne])
    exact hz.trans (by simp)

/-- C10 witness: on a diagram with shape id "A" twice and connector id
"cD" twice, one delete of each removes all matches. -/
theorem C10_witness :
    (delete_shape "t9" exDiag10 "A").1 = Except.ok () ∧
    (delete_shape "t9" exDiag10 "A").2.shapes.countP (fun s => s.id == "A") = 0 ∧
    (delete_connector "t9" exDiag10 "cD").1 = Except.ok () ∧
    (delete_connector "t9" exDiag10 "cD").2.connectors.countP
      (fun k => k.id == "cD") = 0 := by
  obtain ⟨h1, h2⟩ :=
    (C10_delete_removes_all_matches "t9" exDiag10 "A" "cD").1 (by decide)
  obtain ⟨h3, h4⟩ :=
    (C10_delete_removes_all_matches "t9" exDiag10 "A" "cD").2 (by decide)
  exact ⟨h1, h2, h3, h4⟩
